import Mathlib

/-!
Shallow embedding of the Streamlit session/state-machine controller of
`src/app.py` (the "AI Helper for U.S. Government Acts" app), together with
proofs of the specification's claims about it.

The mutable Streamlit `st.session_state` becomes an explicit `SessionState`
record; each user-triggered handler (sidebar start button, gathering chat
turn, finalization run, reset button) becomes a pure transition function on
that record, and a run of the app is a `Reachable` chain of those
transitions.  Python string truthiness (`if s:`) is modelled by `optTruthy`,
and the handful of Python string primitives the app uses (`lower`,
`replace(' ', '_')`, substring `in`, `split(" - ")`) are embedded as
executable functions on `List Char`.
-/

set_option maxRecDepth 40000

/-- Message roles, as the `"role"` strings of the OpenAI-style message
dicts built in `src/app.py`. -/
inductive Role
  | system
  | user
  | assistant
deriving DecidableEq

/-- One chat message: a `{"role": ..., "content": ...}` dict. -/
structure Message where
  role : Role
  content : String
deriving DecidableEq

/-- The session state: the six `st.session_state` keys initialised in
`src/app.py` lines 34-45.  `none` models Python `None`. -/
structure SessionState where
  act : Option String
  project_type : Option String
  chat_history : List Message
  system_prompt : Option String
  gathering_info : Bool
  final_project : Option String
deriving DecidableEq

/-- The initial session state (`src/app.py` lines 34-45): also the state
re-created after the reset handler deletes every key. -/
def initState : SessionState :=
  { act := none, project_type := none, chat_history := [],
    system_prompt := none, gathering_info := true, final_project := none }

/-- Python truthiness of an optional string: `None` and `""` are falsy,
any other string is truthy. -/
def optTruthy : Option String → Bool
  | none => false
  | some s => !(s == "")

/-- Embeds Python `str.lower()` for the ASCII strings the app handles:
character-wise lowercasing. -/
def pyLower (s : String) : String := String.mk (s.toList.map Char.toLower)

/-- Embeds Python `str.replace(a, b)` for a single-character pattern and
replacement (the app only uses `.replace(' ', '_')`). -/
def pyReplaceChar (s : String) (a b : Char) : String :=
  String.mk (s.toList.map (fun c => if c = a then b else c))

/-- Helper for the Python `in` substring test: does `pat` occur as a
contiguous sublist of `l`? -/
def subOccurs (pat l : List Char) : Bool :=
  l.tails.any (fun t => pat.isPrefixOf t)

/-- Embeds the Python substring test `sub in hay`. -/
def pyContains (hay sub : String) : Bool := subOccurs sub.toList hay.toList

/-- Fuel-driven search for the first occurrence of `sep`: returns the text
before it and the text after it, or `none` when `sep` does not occur. -/
def breakOnAux (sep : List Char) : Nat → List Char → Option (List Char × List Char)
  | 0, _ => none
  | _ + 1, [] => none
  | n + 1, c :: rest =>
      if sep.isPrefixOf (c :: rest) then some ([], (c :: rest).drop sep.length)
      else (breakOnAux sep n rest).map (fun p => (c :: p.1, p.2))

/-- Split a character list at the first occurrence of `sep`. -/
def breakOn (sep l : List Char) : Option (List Char × List Char) :=
  breakOnAux sep l.length l

/-- Embeds Python `s.split(sep)[0]`: the text before the first occurrence
of `sep`, or all of `s` when `sep` does not occur. -/
def pySplitFirst (s sep : String) : String :=
  match breakOn sep.toList s.toList with
  | some (a, _) => String.mk a
  | none => s

/-- Embeds Python `s.split(sep)[1]`: the text between the first and the
second occurrence of `sep` (`""` when `sep` does not occur, where Python
would raise; never hit on the catalog below, whose entries hold exactly
one separator). -/
def pySplitSecond (s sep : String) : String :=
  match breakOn sep.toList s.toList with
  | some (_, b) =>
      match breakOn sep.toList b with
      | some (b1, _) => String.mk b1
      | none => String.mk b
  | none => ""

/-- The acts catalog (`src/app.py` lines 48-53). -/
def acts : List String :=
  ["22nd Amendment (1951) - Limits presidents to two terms.",
   "25th Amendment (1967) - Handles what happens if the president can't do their job.",
   "Pendleton Act (1883) - Makes government jobs based on skills, not politics.",
   "Hatch Act (1939) - Stops government workers from doing politics on the job."]

/-- The act-name selectbox options: `[a.split(" - ")[0] for a in acts]`
(`src/app.py` line 58). -/
def actNames : List String := acts.map (fun a => pySplitFirst a " - ")

/-- The description of an act entry: `a.split(" - ")[1]` (`src/app.py`
line 70). -/
def actDescOf (a : String) : String := pySplitSecond a " - "

/-- The project-type selectbox options (`src/app.py` line 62). -/
def project_types : List String :=
  ["A paragraph describing a scenario",
   "A comic strip of a scenario",
   "A skit showing a scenario"]

/-- The `type_map` dict (`src/app.py` lines 71-75). -/
def typeMap : String → Option String
  | "A paragraph describing a scenario" => some "paragraph"
  | "A comic strip of a scenario" => some "comic strip"
  | "A skit showing a scenario" => some "skit"
  | _ => none

/-- The `act_desc` lookup (`src/app.py` line 70): zip the name list with
the description list and take the description paired with the selected
name. -/
def lookupDesc (name : String) : Option String :=
  ((actNames.zip (acts.map actDescOf)).find? (fun p => p.1 == name)).map Prod.snd

/-- Text of the system-prompt f-string before the `{proj_type}` hole
(`src/app.py` lines 77-78), indentation and trailing space preserved. -/
def promptPart1 : String :=
  "You are a kind and patient AI teacher assistant for special needs students in a general education classroom. \n            Your goal is to help the student create a simple, fun "

/-- Text of the system-prompt f-string between the `{proj_type}` and
`{st.session_state.act}` holes (`src/app.py` line 78). -/
def promptPart2 : String := " about a scenario under the "

/-- Text of the system-prompt f-string between the act and the
`{act_desc}` hole (`src/app.py` line 78). -/
def promptPart3 : String := ": "

/-- Text of the system-prompt f-string after the `{act_desc}` hole
(`src/app.py` lines 78-91): the rules block and the fixed opening
question. -/
def promptPart4 : String :=
  ".\n            \n            Rules:\n            - Keep everything simple, positive, and short.\n            - Always ask one question at a time, with 2-4 simple options (e.g., A, B, C) for the student to choose from.\n            - Use the student's choices to build the project step by step.\n            - For paragraphs: Aim for 4-6 sentences.\n            - For comic strips: Create 3-4 panels with simple text descriptions (no images yet).\n            - For skits: Write a short script with 2-3 characters and simple dialogue.\n            - End by generating the full project once enough info is gathered.\n            - If the student says \"done\" or similar, generate the final output.\n            - Be encouraging: \"Great choice!\" or \"That's a cool idea!\"\n            \n            Start by asking: 'What's a fun scenario you can think of for this act? Like, who is involved? (A) A president and vice president, (B) Government workers at a party, (C) Friends talking about elections, (D) Something else - tell me!'"

/-- The Prompt Builder: the f-string of `src/app.py` lines 77-91 with its
three holes `{proj_type}`, `{st.session_state.act}`, `{act_desc}`. -/
def systemPromptFor (projType actN actDesc : String) : String :=
  promptPart1 ++ (projType ++ (promptPart2 ++ (actN ++ (promptPart3 ++ (actDesc ++ promptPart4)))))

/-- The completion keywords of the done-check (`src/app.py` line 132). -/
def doneWords : List String := ["done", "finish", "ready"]

/-- The completion check `any(word in prompt.lower() for word in
["done", "finish", "ready"])` (`src/app.py` line 132). -/
def checkDone (input : String) : Bool :=
  doneWords.any (fun w => pyContains (pyLower input) w)

/-- The result of one Completion Gateway call: the reply content on
success, or a raised/propagated API error. -/
inductive GatewayResult
  | ok (reply : String)
  | error
deriving DecidableEq

/-- The value an act selectbox interaction yields: one member of the
option list (`st.selectbox` always returns a selected option, by default
the first). -/
def actOption (i : Fin actNames.length) : String := actNames.get i

/-- The value a project-type selectbox interaction yields: one member of
the option list. -/
def typeOption (j : Fin project_types.length) : String := project_types.get j

/-- The `selected_act` / `selected_type` sidebar writes (`src/app.py`
lines 58-65): each selectbox yields an option from its list, and a truthy
value is written into session state. -/
def applySelects (s : SessionState) (i : Fin actNames.length)
    (j : Fin project_types.length) : SessionState :=
  let selA := actOption i
  let s1 := if selA == "" then s else { s with act := some selA }
  let selT := typeOption j
  if selT == "" then s1 else { s1 with project_type := some selT }

/-- The body of the Start button's success branch (`src/app.py` lines
69-96): build the system prompt, reset the gathering flag, clear the
transcript and the final artifact.  `selT` is the run's `selected_type`;
the act name and description are read back from session state as in the
source.  The `getD ""` totalizes the `next(...)` and dict lookups, which
always succeed on the states the sidebar produces. -/
def startActions (s : SessionState) (selT : String) : SessionState :=
  let actN := s.act.getD ""
  let actDesc := (lookupDesc actN).getD ""
  let projType := (typeMap selT).getD ""
  { s with system_prompt := some (systemPromptFor projType actN actDesc),
           gathering_info := true, chat_history := [], final_project := none }

/-- One run of the selection sidebar (`src/app.py` lines 56-98): the two
selectbox writes, then, if the Start button was clicked, either the start
actions or the missing-selection warning.  The returned `Bool` is `true`
exactly when the warning of line 98 is shown. -/
def sidebarStep (s : SessionState) (i : Fin actNames.length)
    (j : Fin project_types.length) (clicked : Bool) : SessionState × Bool :=
  let s2 := applySelects s i j
  if clicked then
    if optTruthy s2.act && optTruthy s2.project_type then
      (startActions s2 (typeOption j), false)
    else (s2, true)
  else (s2, false)

/-- The guard of the main chat interface (`src/app.py` line 101):
`st.session_state.act and st.session_state.project_type and
st.session_state.system_prompt`. -/
def mainGuard (s : SessionState) : Bool :=
  optTruthy s.act && optTruthy s.project_type && optTruthy s.system_prompt

/-- One gathering chat turn (`src/app.py` lines 110-135): guarded by the
main-interface condition, the gathering flag, and a truthy chat input.
The user message is appended first; on gateway failure the raised
exception aborts the handler there; on success the assistant reply is
appended and then the done-check may clear the gathering flag. -/
def chatTurnStep (s : SessionState) (input : String) (result : GatewayResult) :
    SessionState :=
  if mainGuard s && s.gathering_info && !(input == "") then
    let s1 := { s with chat_history := s.chat_history ++ [⟨Role.user, input⟩] }
    match result with
    | .error => s1
    | .ok reply =>
        let s2 := { s1 with chat_history := s1.chat_history ++ [⟨Role.assistant, reply⟩] }
        if checkDone input then { s2 with gathering_info := false } else s2
  else s

/-- One final-generation run (`src/app.py` lines 138-148): guarded by the
main-interface condition, a cleared gathering flag and a falsy
`final_project`; on success the reply is stored as the final artifact, on
failure the raised exception leaves the state unchanged. -/
def finalizeStep (s : SessionState) (result : GatewayResult) : SessionState :=
  if mainGuard s && !s.gathering_info && !optTruthy s.final_project then
    match result with
    | .error => s
    | .ok reply => { s with final_project := some reply }
  else s

/-- The reset handler (`src/app.py` lines 162-165), reachable in the
post-generation render: delete every session key, after which the next
run re-creates the defaults of lines 34-45, i.e. `initState`. -/
def resetStep (s : SessionState) : SessionState :=
  if mainGuard s && !s.gathering_info then initState else s

/-- The user-triggered events of one Streamlit rerun that touch session
state. -/
inductive Ev
  | sidebar (i : Fin actNames.length) (j : Fin project_types.length) (clicked : Bool)
  | chatTurn (input : String) (result : GatewayResult)
  | finalize (result : GatewayResult)
  | reset

/-- The transition function of the conversation state machine: dispatch
one event to its handler. -/
def step (s : SessionState) : Ev → SessionState
  | .sidebar i j clicked => (sidebarStep s i j clicked).1
  | .chatTurn input result => chatTurnStep s input result
  | .finalize result => finalizeStep s result
  | .reset => resetStep s

/-- The session states reachable from the initial state by user events. -/
inductive Reachable : SessionState → Prop
  | init : Reachable initState
  | next {s : SessionState} (e : Ev) : Reachable s → Reachable (step s e)

/-- The spec's phase view of a session state, read off the dispatch
structure of `src/app.py`: Idle when the main interface is not shown
(line 101 guard false), otherwise Gathering / Finalizing / Complete
according to the gathering flag (line 110) and the truthiness of the
final artifact (line 138). -/
inductive Phase
  | Idle
  | Gathering
  | Finalizing
  | Complete
deriving DecidableEq

/-- Derive the phase of a session state. -/
def phase (s : SessionState) : Phase :=
  if mainGuard s then
    if s.gathering_info then Phase.Gathering
    else if optTruthy s.final_project then Phase.Complete
    else Phase.Finalizing
  else Phase.Idle

/-- The instruction suffix appended to the system prompt for the
final-generation call (`src/app.py` line 140). -/
def finalSuffix : String :=
  "\n\nNow, using all the info from our chat, generate the final project."

/-- One chat-completion request: messages plus the numeric parameters of
`client.chat.completions.create`. -/
structure Request where
  messages : List Message
  maxTokens : Nat
  temperature : ℚ

/-- The gathering-turn request (`src/app.py` lines 120-126), built from
the pre-turn state and the user input: the fresh system message followed
by the transcript with the user message just appended. -/
def gatherRequest (s : SessionState) (input : String) : Request :=
  { messages := ⟨Role.system, s.system_prompt.getD ""⟩ ::
      (s.chat_history ++ [⟨Role.user, input⟩]),
    maxTokens := 300, temperature := 0.7 }

/-- The final-generation request (`src/app.py` lines 140-146): the fresh
system message with the instruction suffix, followed by the transcript. -/
def finalRequest (s : SessionState) : Request :=
  { messages := ⟨Role.system, (s.system_prompt.getD "") ++ finalSuffix⟩ :: s.chat_history,
    maxTokens := 800, temperature := 0.5 }

/-- The download file name (`src/app.py` line 157):
`f"{act}_{project_type.lower().replace(' ', '_')}.txt"`. -/
def downloadFileName (s : SessionState) : String :=
  (s.act.getD "") ++ "_" ++ pyReplaceChar (pyLower (s.project_type.getD "")) ' ' '_' ++ ".txt"

/-- Modelled from the spec: the export file name as §6 describes it, with
BOTH the Topic and the ProjectType components lowercased and their spaces
replaced by the separator (the code's transform applied to each
component). -/
def specFileName (topic pt : String) : String :=
  pyReplaceChar (pyLower topic) ' ' '_' ++ "_" ++ pyReplaceChar (pyLower pt) ' ' '_' ++ ".txt"

/-- None of the four act-name options is the empty string. -/
lemma actOption_ne : ∀ i : Fin actNames.length, actOption i ≠ "" := by
  decide

/-- None of the three project-type options is the empty string. -/
lemma typeOption_ne : ∀ j : Fin project_types.length, typeOption j ≠ "" := by
  decide

/-- Every act-name option is a member of the name list. -/
lemma actOption_mem : ∀ i : Fin actNames.length, actOption i ∈ actNames := by
  decide

/-- Every project-type option is a member of the option list. -/
lemma typeOption_mem : ∀ j : Fin project_types.length, typeOption j ∈ project_types := by
  decide

/-- The built system prompt is never the empty string. -/
lemma systemPromptFor_ne_empty (t a d : String) : systemPromptFor t a d ≠ "" := by
  intro h
  have h2 := congrArg String.length h
  simp only [systemPromptFor, String.length_append] at h2
  have h1 : 0 < promptPart1.length := by decide
  have h0 : ("" : String).length = 0 := by decide
  rw [h0] at h2
  omega

/-- Unfold the main-interface guard into its three truthiness conjuncts. -/
lemma mainGuard_iff {s : SessionState} :
    mainGuard s = true ↔
      optTruthy s.act = true ∧ optTruthy s.project_type = true ∧
        optTruthy s.system_prompt = true := by
  simp [mainGuard, Bool.and_eq_true, and_assoc]

/-- Phase is `Gathering` exactly when the main interface is shown and the
gathering flag is set. -/
lemma phase_gathering_iff {s : SessionState} :
    phase s = Phase.Gathering ↔ mainGuard s = true ∧ s.gathering_info = true := by
  unfold phase
  split_ifs <;> simp_all

/-- Phase is `Complete` exactly when the main interface is shown, the
gathering flag is cleared, and the final artifact is truthy. -/
lemma phase_complete_iff {s : SessionState} :
    phase s = Phase.Complete ↔
      mainGuard s = true ∧ s.gathering_info = false ∧ optTruthy s.final_project = true := by
  unfold phase
  split_ifs <;> simp_all

/-- Phase is `Finalizing` exactly when the main interface is shown, the
gathering flag is cleared, and the final artifact is falsy. -/
lemma phase_finalizing_iff {s : SessionState} :
    phase s = Phase.Finalizing ↔
      mainGuard s = true ∧ s.gathering_info = false ∧ optTruthy s.final_project = false := by
  unfold phase
  split_ifs <;> simp_all

/-- The two selectbox writes set the selections and touch nothing else. -/
lemma applySelects_spec (s : SessionState) (i : Fin actNames.length)
    (j : Fin project_types.length) :
    applySelects s i j =
      { s with
          act := some (actOption i),
          project_type := some (typeOption j) } := by
  unfold applySelects
  simp [actOption_ne i, typeOption_ne j]

/-- An unclicked sidebar run only performs the selectbox writes. -/
lemma sidebarStep_unclicked (s : SessionState) (i : Fin actNames.length)
    (j : Fin project_types.length) :
    sidebarStep s i j false = (applySelects s i j, false) := rfl

/-- A clicked sidebar run always takes the success branch: it writes both
selections, builds the system prompt, sets the gathering flag, clears the
transcript and the final artifact, and shows no warning. -/
lemma sidebarStep_clicked (s : SessionState) (i : Fin actNames.length)
    (j : Fin project_types.length) :
    sidebarStep s i j true =
      ({ s with
          act := some (actOption i),
          project_type := some (typeOption j),
          system_prompt := some (systemPromptFor ((typeMap (typeOption j)).getD "")
            (actOption i) ((lookupDesc (actOption i)).getD "")),
          gathering_info := true,
          chat_history := [],
          final_project := none }, false) := by
  unfold sidebarStep
  rw [applySelects_spec]
  simp [optTruthy, actOption_ne i, typeOption_ne j, startActions]

/-- The state invariant maintained by every handler: the final artifact is
absent while gathering; an unset system prompt means a pristine session;
a set system prompt is non-empty and comes with truthy selections; the
selections come from their catalogs; and the transcript holds only user
and assistant messages. -/
def SessInv (s : SessionState) : Prop :=
  (s.gathering_info = true → s.final_project = none) ∧
  (s.system_prompt = none →
     s.gathering_info = true ∧ s.chat_history = [] ∧ s.final_project = none) ∧
  (∀ p, s.system_prompt = some p →
     optTruthy s.act = true ∧ optTruthy s.project_type = true ∧ p ≠ "") ∧
  (∀ a, s.act = some a → a ∈ actNames) ∧
  (∀ t, s.project_type = some t → t ∈ project_types) ∧
  (∀ m ∈ s.chat_history, m.role = Role.user ∨ m.role = Role.assistant)

/-- The initial state satisfies the invariant. -/
lemma sessInv_init : SessInv initState := by
  refine ⟨?_, ?_, ?_, ?_, ?_, ?_⟩ <;> simp [initState]

/-- A gathering turn whose guard fails (interface hidden, gathering flag
cleared, or empty input) leaves the state unchanged. -/
lemma chatTurnStep_skip (s : SessionState) (input : String) (res : GatewayResult)
    (hc : (mainGuard s && s.gathering_info && !(input == "")) = false) :
    chatTurnStep s input res = s := by
  unfold chatTurnStep
  rw [hc]
  rfl

/-- A guarded gathering turn with a failed gateway call appends exactly
the user message. -/
lemma chatTurnStep_err (s : SessionState) (input : String)
    (hc : (mainGuard s && s.gathering_info && !(input == "")) = true) :
    chatTurnStep s input GatewayResult.error =
      { s with chat_history := s.chat_history ++ [⟨Role.user, input⟩] } := by
  unfold chatTurnStep
  rw [if_pos hc]

/-- A guarded gathering turn with a successful reply and a matching
done-check appends the user and assistant messages and clears the
gathering flag. -/
lemma chatTurnStep_ok_done (s : SessionState) (input r : String)
    (hc : (mainGuard s && s.gathering_info && !(input == "")) = true)
    (hd : checkDone input = true) :
    chatTurnStep s input (GatewayResult.ok r) =
      { s with
          chat_history := s.chat_history ++ [⟨Role.user, input⟩] ++ [⟨Role.assistant, r⟩],
          gathering_info := false } := by
  unfold chatTurnStep
  rw [if_pos hc]
  simp only [hd]
  rfl

/-- A guarded gathering turn with a successful reply and a failing
done-check appends the user and assistant messages and keeps the
gathering flag. -/
lemma chatTurnStep_ok_stay (s : SessionState) (input r : String)
    (hc : (mainGuard s && s.gathering_info && !(input == "")) = true)
    (hd : checkDone input = false) :
    chatTurnStep s input (GatewayResult.ok r) =
      { s with
          chat_history := s.chat_history ++ [⟨Role.user, input⟩] ++ [⟨Role.assistant, r⟩] } := by
  unfold chatTurnStep
  rw [if_pos hc]
  simp only [hd]
  rfl

/-- A finalization run whose guard fails leaves the state unchanged. -/
lemma finalizeStep_skip (s : SessionState) (res : GatewayResult)
    (hc : (mainGuard s && !s.gathering_info && !optTruthy s.final_project) = false) :
    finalizeStep s res = s := by
  unfold finalizeStep
  rw [hc]
  rfl

/-- A guarded finalization run with a failed gateway call leaves the
state unchanged. -/
lemma finalizeStep_err (s : SessionState)
    (hc : (mainGuard s && !s.gathering_info && !optTruthy s.final_project) = true) :
    finalizeStep s GatewayResult.error = s := by
  unfold finalizeStep
  rw [if_pos hc]

/-- A guarded finalization run with a successful reply stores the reply
as the final artifact. -/
lemma finalizeStep_ok (s : SessionState) (r : String)
    (hc : (mainGuard s && !s.gathering_info && !optTruthy s.final_project) = true) :
    finalizeStep s (GatewayResult.ok r) = { s with final_project := some r } := by
  unfold finalizeStep
  rw [if_pos hc]

/-- A guarded reset click restores the initial state. -/
lemma resetStep_go (s : SessionState)
    (hc : (mainGuard s && !s.gathering_info) = true) :
    resetStep s = initState := by
  unfold resetStep
  rw [if_pos hc]

/-- A reset click whose guard fails leaves the state unchanged. -/
lemma resetStep_skip (s : SessionState)
    (hc : (mainGuard s && !s.gathering_info) = false) :
    resetStep s = s := by
  unfold resetStep
  rw [hc]
  rfl

/-- Every handler preserves the invariant. -/
lemma sessInv_preserved {s : SessionState} (h : SessInv s) (e : Ev) : SessInv (step s e) := by
  obtain ⟨h1, h2, h3, h4, h5, h6⟩ := h
  cases e with
  | reset =>
      show SessInv (resetStep s)
      by_cases hc : (mainGuard s && !s.gathering_info) = true
      · rw [resetStep_go s hc]; exact sessInv_init
      · rw [resetStep_skip s (by simpa using hc)]; exact ⟨h1, h2, h3, h4, h5, h6⟩
  | finalize res =>
      show SessInv (finalizeStep s res)
      by_cases hc : (mainGuard s && !s.gathering_info && !optTruthy s.final_project) = true
      · have hcs := hc
        simp only [Bool.and_eq_true, Bool.not_eq_true'] at hcs
        obtain ⟨⟨hmg, hng⟩, _⟩ := hcs
        have hps : optTruthy s.system_prompt = true := (mainGuard_iff.mp hmg).2.2
        have hpromptne : s.system_prompt ≠ none := by
          intro hn; rw [hn] at hps; cases hps
        cases res with
        | error => rw [finalizeStep_err s hc]; exact ⟨h1, h2, h3, h4, h5, h6⟩
        | ok r =>
            rw [finalizeStep_ok s r hc]
            refine ⟨?_, ?_, h3, h4, h5, h6⟩
            · intro hgi; rw [hgi] at hng; cases hng
            · intro hnone; exact absurd hnone hpromptne
      · rw [finalizeStep_skip s res (by simpa using hc)]; exact ⟨h1, h2, h3, h4, h5, h6⟩
  | chatTurn input res =>
      show SessInv (chatTurnStep s input res)
      by_cases hc : (mainGuard s && s.gathering_info && !(input == "")) = true
      · have hcs := hc
        simp only [Bool.and_eq_true] at hcs
        obtain ⟨⟨hmg, hgi⟩, _⟩ := hcs
        have hps : optTruthy s.system_prompt = true := (mainGuard_iff.mp hmg).2.2
        have hfin : s.final_project = none := h1 hgi
        have hpromptne : s.system_prompt ≠ none := by
          intro hn; rw [hn] at hps; cases hps
        have hroles : ∀ m ∈ s.chat_history ++ [(⟨Role.user, input⟩ : Message)],
            m.role = Role.user ∨ m.role = Role.assistant := by
          intro m hm
          rcases List.mem_append.mp hm with hm | hm
          · exact h6 m hm
          · simp at hm; subst hm; exact Or.inl rfl
        cases res with
        | error =>
            rw [chatTurnStep_err s input hc]
            exact ⟨fun _ => hfin, fun hn => absurd hn hpromptne, h3, h4, h5, hroles⟩
        | ok r =>
            have hroles2 : ∀ m ∈ s.chat_history ++ [(⟨Role.user, input⟩ : Message)] ++
                [(⟨Role.assistant, r⟩ : Message)],
                m.role = Role.user ∨ m.role = Role.assistant := by
              intro m hm
              rcases List.mem_append.mp hm with hm | hm
              · exact hroles m hm
              · simp at hm; subst hm; exact Or.inr rfl
            by_cases hd : checkDone input = true
            · rw [chatTurnStep_ok_done s input r hc hd]
              exact ⟨fun hcon => Bool.noConfusion hcon, fun hn => absurd hn hpromptne,
                h3, h4, h5, hroles2⟩
            · rw [chatTurnStep_ok_stay s input r hc (by simpa using hd)]
              exact ⟨fun _ => hfin, fun hn => absurd hn hpromptne, h3, h4, h5, hroles2⟩
      · rw [chatTurnStep_skip s input res (by simpa using hc)]
        exact ⟨h1, h2, h3, h4, h5, h6⟩
  | sidebar i j clicked =>
      cases clicked with
      | true =>
          show SessInv (sidebarStep s i j true).1
          rw [sidebarStep_clicked]
          refine ⟨fun _ => rfl, fun hnone => Option.noConfusion hnone, ?_, ?_, ?_, ?_⟩
          · intro p hp
            refine ⟨by simp [optTruthy, actOption_ne i],
              by simp [optTruthy, typeOption_ne j], ?_⟩
            injection hp with hp
            rw [← hp]
            exact systemPromptFor_ne_empty _ _ _
          · intro a ha; injection ha with ha; rw [← ha]; exact actOption_mem i
          · intro t ht; injection ht with ht; rw [← ht]; exact typeOption_mem j
          · intro m hm; cases hm
      | false =>
          show SessInv (sidebarStep s i j false).1
          rw [sidebarStep_unclicked, applySelects_spec]
          refine ⟨h1, ?_, ?_, ?_, ?_, h6⟩
          · intro hnone; exact h2 hnone
          · intro p hp
            exact ⟨by simp [optTruthy, actOption_ne i],
              by simp [optTruthy, typeOption_ne j], (h3 p hp).2.2⟩
          · intro a ha; injection ha with ha; rw [← ha]; exact actOption_mem i
          · intro t ht; injection ht with ht; rw [← ht]; exact typeOption_mem j

/-- Every reachable session state satisfies the invariant. -/
lemma reachable_inv {s : SessionState} (h : Reachable s) : SessInv s := by
  induction h with
  | init => exact sessInv_init
  | next e _ ih => exact sessInv_preserved ih e

/-- The concrete start event of the worked scenario: Pendleton Act with
the paragraph project type. -/
def evStart : Ev := Ev.sidebar ⟨2, by decide⟩ ⟨0, by decide⟩ true

/-- A concrete reachable Gathering state. -/
def sGather : SessionState := step initState evStart

/-- A concrete reachable Finalizing state, reached by a "done" turn. -/
def sFin : SessionState :=
  step sGather (Ev.chatTurn "I choose A, done" (GatewayResult.ok "Great choice!"))

/-- A concrete reachable Complete state. -/
def sDone : SessionState :=
  step sFin (Ev.finalize (GatewayResult.ok "Panel 1: a scenario"))

/-- The Gathering witness state is reachable. -/
lemma reach_sGather : Reachable sGather := Reachable.next evStart Reachable.init

/-- The Finalizing witness state is reachable. -/
lemma reach_sFin : Reachable sFin :=
  Reachable.next (Ev.chatTurn "I choose A, done" (GatewayResult.ok "Great choice!")) reach_sGather

/-- The Complete witness state is reachable. -/
lemma reach_sDone : Reachable sDone :=
  Reachable.next (Ev.finalize (GatewayResult.ok "Panel 1: a scenario")) reach_sFin

/-- Substring containment as a proposition: `sub` occurs contiguously in
`hay`. -/
def strContains (hay sub : String) : Prop := ∃ pre suf, hay = pre ++ (sub ++ suf)

/-- A string contains the middle piece of any three-way split. -/
lemma strContains_here (p s q : String) : strContains (p ++ (s ++ q)) s := ⟨p, q, rfl⟩

/-- Containment is stable under prepending. -/
lemma strContains_prepend (a : String) {b sub : String} (h : strContains b sub) :
    strContains (a ++ b) sub := by
  obtain ⟨pre, suf, h⟩ := h
  exact ⟨a ++ pre, suf, by rw [h, String.append_assoc]⟩

/-- Containment is transitive through a contained middle string. -/
lemma strContains_trans {a b c : String} (hab : strContains a b) (hbc : strContains b c) :
    strContains a c := by
  obtain ⟨p, s, hab⟩ := hab
  obtain ⟨p2, s2, hbc⟩ := hbc
  refine ⟨p ++ p2, s2 ++ s, ?_⟩
  rw [hab, hbc]
  simp [String.append_assoc]

/-- The type-specific generation rule lines of the system prompt
(`src/app.py` lines 84-86), keyed by the `type_map` word. -/
def typeRule : String → String
  | "paragraph" => "- For paragraphs: Aim for 4-6 sentences."
  | "comic strip" => "- For comic strips: Create 3-4 panels with simple text descriptions (no images yet)."
  | "skit" => "- For skits: Write a short script with 2-3 characters and simple dialogue."
  | _ => ""

/-- The fixed opening-question sentence closing the system prompt
(`src/app.py` line 91). -/
def openingQuestion : String :=
  "Start by asking: 'What's a fun scenario you can think of for this act? Like, who is involved? (A) A president and vice president, (B) Government workers at a party, (C) Friends talking about elections, (D) Something else - tell me!'"

/-- The rules-block text of the prompt before the first type rule. -/
def promptSeg : String :=
  ".\n            \n            Rules:\n            - Keep everything simple, positive, and short.\n            - Always ask one question at a time, with 2-4 simple options (e.g., A, B, C) for the student to choose from.\n            - Use the student's choices to build the project step by step.\n            "

/-- The newline-and-indentation separator between rule lines. -/
def promptMid : String := "\n            "

/-- The rules-block text between the last type rule and the opening
question. -/
def promptTail : String :=
  "\n            - End by generating the full project once enough info is gathered.\n            - If the student says \"done\" or similar, generate the final output.\n            - Be encouraging: \"Great choice!\" or \"That's a cool idea!\"\n            \n            "

/-- The tail of the prompt f-string decomposes around the three type
rules and the closing opening question. -/
lemma promptPart4_decomp :
    promptPart4 =
      promptSeg ++ (typeRule "paragraph" ++ (promptMid ++ (typeRule "comic strip" ++
        (promptMid ++ (typeRule "skit" ++ (promptTail ++ openingQuestion)))))) := by
  decide

/-- The paragraph rule mentions the word "paragraph". -/
lemma paragraphRule_contains_word : strContains (typeRule "paragraph") "paragraph" := by
  exact ⟨"- For ", "s: Aim for 4-6 sentences.", by decide⟩

/-- The paragraph rule mentions "4-6 sentences". -/
lemma paragraphRule_contains_sentences : strContains (typeRule "paragraph") "4-6 sentences" := by
  exact ⟨"- For paragraphs: Aim for ", ".", by decide⟩

/-- The completion check rejects the empty input. -/
lemma checkDone_empty : checkDone "" = false := by decide

/-- C1: during Gathering, for every user input whose lowercasing contains
"done", "finish" or "ready" as a naive substring, a successful turn ends
with the Assistant reply appended to the Transcript and the phase moved to
Finalizing (the flag flip is part of the same post-state as the appended
reply, never an earlier one); for every input without such a substring the
phase remains Gathering after a successful reply. -/
theorem claim_C1 (s : SessionState) (input reply : String)
    (hr : Reachable s) (hph : phase s = Phase.Gathering) :
    (checkDone input = true →
      phase (step s (Ev.chatTurn input (GatewayResult.ok reply))) = Phase.Finalizing ∧
      (step s (Ev.chatTurn input (GatewayResult.ok reply))).chat_history =
        s.chat_history ++ [(⟨Role.user, input⟩ : Message)] ++ [(⟨Role.assistant, reply⟩ : Message)]) ∧
    (checkDone input = false →
      phase (step s (Ev.chatTurn input (GatewayResult.ok reply))) = Phase.Gathering) := by
  obtain ⟨hmg, hgi⟩ := phase_gathering_iff.mp hph
  have hfin : s.final_project = none := (reachable_inv hr).1 hgi
  constructor
  · intro hd
    have hne : (input == "") = false := by
      by_cases hi : input = ""
      · subst hi; rw [checkDone_empty] at hd; cases hd
      · simp [hi]
    have hc : (mainGuard s && s.gathering_info && !(input == "")) = true := by
      rw [hmg, hgi, hne]; rfl
    rw [show step s (Ev.chatTurn input (GatewayResult.ok reply)) =
          chatTurnStep s input (GatewayResult.ok reply) from rfl,
        chatTurnStep_ok_done s input reply hc hd]
    refine ⟨?_, rfl⟩
    rw [phase_finalizing_iff]
    refine ⟨hmg, rfl, ?_⟩
    show optTruthy s.final_project = false
    rw [hfin]
    rfl
  · intro hd
    by_cases hi : input = ""
    · have hc : (mainGuard s && s.gathering_info && !(input == "")) = false := by
        subst hi; simp
      rw [show step s (Ev.chatTurn input (GatewayResult.ok reply)) =
            chatTurnStep s input (GatewayResult.ok reply) from rfl,
          chatTurnStep_skip s input (GatewayResult.ok reply) hc]
      exact hph
    · have hne : (input == "") = false := by simp [hi]
      have hc : (mainGuard s && s.gathering_info && !(input == "")) = true := by
        rw [hmg, hgi, hne]; rfl
      rw [show step s (Ev.chatTurn input (GatewayResult.ok reply)) =
            chatTurnStep s input (GatewayResult.ok reply) from rfl,
          chatTurnStep_ok_stay s input reply hc hd]
      rw [phase_gathering_iff]
      exact ⟨hmg, hgi⟩

/-- C1 witness: the scenario turn "I choose A, done" from the concrete
Gathering state. -/
theorem claim_C1_witness :
    (checkDone "I choose A, done" = true →
      phase (step sGather (Ev.chatTurn "I choose A, done" (GatewayResult.ok "Great choice!"))) =
        Phase.Finalizing ∧
      (step sGather (Ev.chatTurn "I choose A, done" (GatewayResult.ok "Great choice!"))).chat_history =
        sGather.chat_history ++ [(⟨Role.user, "I choose A, done"⟩ : Message)] ++
          [(⟨Role.assistant, "Great choice!"⟩ : Message)]) ∧
    (checkDone "I choose A, done" = false →
      phase (step sGather (Ev.chatTurn "I choose A, done" (GatewayResult.ok "Great choice!"))) =
        Phase.Gathering) :=
  claim_C1 sGather "I choose A, done" "Great choice!" reach_sGather (by decide)

/-- C2: in every reachable state the final artifact is set and non-empty
exactly when the phase is Complete, and a Finalizing run whose gateway
reply is the empty string leaves the phase Finalizing. -/
theorem claim_C2 (s : SessionState) (hr : Reachable s) :
    (optTruthy s.final_project = true ↔ phase s = Phase.Complete) ∧
    (phase s = Phase.Finalizing →
      phase (step s (Ev.finalize (GatewayResult.ok ""))) = Phase.Finalizing) := by
  obtain ⟨h1, h2, h3, _, _, _⟩ := reachable_inv hr
  constructor
  · constructor
    · intro hf
      rw [phase_complete_iff]
      have hgf : s.gathering_info = false := by
        cases hgb : s.gathering_info
        · rfl
        · rw [h1 hgb] at hf; cases hf
      cases hsp : s.system_prompt with
      | none =>
          obtain ⟨_, _, hfn⟩ := h2 hsp
          rw [hfn] at hf; cases hf
      | some p =>
          obtain ⟨hact, htype, hpne⟩ := h3 p hsp
          refine ⟨mainGuard_iff.mpr ⟨hact, htype, ?_⟩, hgf, hf⟩
          rw [hsp]
          simp [optTruthy, hpne]
    · intro hph
      exact (phase_complete_iff.mp hph).2.2
  · intro hph
    obtain ⟨hmg, hng, hnf⟩ := phase_finalizing_iff.mp hph
    have hc : (mainGuard s && !s.gathering_info && !optTruthy s.final_project) = true := by
      rw [hmg, hng, hnf]; rfl
    rw [show step s (Ev.finalize (GatewayResult.ok "")) =
          finalizeStep s (GatewayResult.ok "") from rfl,
        finalizeStep_ok s "" hc]
    rw [phase_finalizing_iff]
    exact ⟨hmg, hng, rfl⟩

/-- C2 witness: the concrete Complete state and the concrete Finalizing
state with an empty final reply. -/
theorem claim_C2_witness :
    ((optTruthy sFin.final_project = true ↔ phase sFin = Phase.Complete) ∧
      (phase sFin = Phase.Finalizing →
        phase (step sFin (Ev.finalize (GatewayResult.ok ""))) = Phase.Finalizing)) ∧
    ((optTruthy sDone.final_project = true ↔ phase sDone = Phase.Complete) ∧
      (phase sDone = Phase.Finalizing →
        phase (step sDone (Ev.finalize (GatewayResult.ok ""))) = Phase.Finalizing)) :=
  ⟨claim_C2 sFin reach_sFin, claim_C2 sDone reach_sDone⟩

/-- C3: a gateway failure during a Gathering turn leaves the phase
Gathering and the final artifact unset, appends no Assistant message, and
retains the already-appended User message. -/
theorem claim_C3 (s : SessionState) (input : String)
    (hr : Reachable s) (hph : phase s = Phase.Gathering) (hi : input ≠ "") :
    phase (step s (Ev.chatTurn input GatewayResult.error)) = Phase.Gathering ∧
    (step s (Ev.chatTurn input GatewayResult.error)).final_project = none ∧
    (step s (Ev.chatTurn input GatewayResult.error)).chat_history =
      s.chat_history ++ [(⟨Role.user, input⟩ : Message)] := by
  obtain ⟨hmg, hgi⟩ := phase_gathering_iff.mp hph
  have hfin : s.final_project = none := (reachable_inv hr).1 hgi
  have hne : (input == "") = false := by simp [hi]
  have hc : (mainGuard s && s.gathering_info && !(input == "")) = true := by
    rw [hmg, hgi, hne]; rfl
  rw [show step s (Ev.chatTurn input GatewayResult.error) =
        chatTurnStep s input GatewayResult.error from rfl,
      chatTurnStep_err s input hc]
  refine ⟨?_, hfin, rfl⟩
  rw [phase_gathering_iff]
  exact ⟨hmg, hgi⟩

/-- C3 witness: a failed turn on the input "hello" from the concrete
Gathering state. -/
theorem claim_C3_witness :
    phase (step sGather (Ev.chatTurn "hello" GatewayResult.error)) = Phase.Gathering ∧
    (step sGather (Ev.chatTurn "hello" GatewayResult.error)).final_project = none ∧
    (step sGather (Ev.chatTurn "hello" GatewayResult.error)).chat_history =
      sGather.chat_history ++ [(⟨Role.user, "hello"⟩ : Message)] :=
  claim_C3 sGather "hello" reach_sGather (by decide) (by decide)

/-- C4: a Start click from Idle builds the system prompt via the Prompt
Builder, resets the Transcript to the empty list and clears the final
artifact, landing in Gathering; and no gathering turn, finalization run
or plain sidebar rerun ever clears or shortens the Transcript, so within
a session the Transcript is cleared only by that transition. -/
theorem claim_C4 :
    (∀ (s : SessionState) (i : Fin actNames.length) (j : Fin project_types.length),
      phase s = Phase.Idle →
        (step s (Ev.sidebar i j true)).system_prompt =
          some (systemPromptFor ((typeMap (typeOption j)).getD "") (actOption i)
            ((lookupDesc (actOption i)).getD "")) ∧
        (step s (Ev.sidebar i j true)).chat_history = [] ∧
        (step s (Ev.sidebar i j true)).final_project = none ∧
        phase (step s (Ev.sidebar i j true)) = Phase.Gathering) ∧
    (∀ (s : SessionState) (input : String) (res : GatewayResult),
      s.chat_history <+: (step s (Ev.chatTurn input res)).chat_history) ∧
    (∀ (s : SessionState) (res : GatewayResult),
      (step s (Ev.finalize res)).chat_history = s.chat_history) ∧
    (∀ (s : SessionState) (i : Fin actNames.length) (j : Fin project_types.length),
      (step s (Ev.sidebar i j false)).chat_history = s.chat_history) := by
  refine ⟨?_, ?_, ?_, ?_⟩
  · intro s i j _
    rw [show step s (Ev.sidebar i j true) = (sidebarStep s i j true).1 from rfl,
        sidebarStep_clicked]
    refine ⟨rfl, rfl, rfl, ?_⟩
    rw [phase_gathering_iff]
    refine ⟨mainGuard_iff.mpr ⟨?_, ?_, ?_⟩, rfl⟩
    · simp [optTruthy, actOption_ne i]
    · simp [optTruthy, typeOption_ne j]
    · simp [optTruthy, systemPromptFor_ne_empty]
  · intro s input res
    show s.chat_history <+: (chatTurnStep s input res).chat_history
    by_cases hc : (mainGuard s && s.gathering_info && !(input == "")) = true
    · cases res with
      | error =>
          rw [chatTurnStep_err s input hc]
          exact List.prefix_append _ _
      | ok r =>
          by_cases hd : checkDone input = true
          · rw [chatTurnStep_ok_done s input r hc hd]
            exact (List.prefix_append _ _).trans (List.prefix_append _ _)
          · rw [chatTurnStep_ok_stay s input r hc (by simpa using hd)]
            exact (List.prefix_append _ _).trans (List.prefix_append _ _)
    · rw [chatTurnStep_skip s input res (by simpa using hc)]
  · intro s res
    show (finalizeStep s res).chat_history = s.chat_history
    by_cases hc : (mainGuard s && !s.gathering_info && !optTruthy s.final_project) = true
    · cases res with
      | error => rw [finalizeStep_err s hc]
      | ok r => rw [finalizeStep_ok s r hc]
    · rw [finalizeStep_skip s res (by simpa using hc)]
  · intro s i j
    rw [show step s (Ev.sidebar i j false) = (sidebarStep s i j false).1 from rfl,
        sidebarStep_unclicked, applySelects_spec]

/-- C4 witness: the Start click on the Pendleton Act and the paragraph
type from the initial (Idle) state. -/
theorem claim_C4_witness :
    (step initState evStart).system_prompt =
      some (systemPromptFor ((typeMap (typeOption ⟨0, by decide⟩)).getD "")
        (actOption ⟨2, by decide⟩) ((lookupDesc (actOption ⟨2, by decide⟩)).getD "")) ∧
    (step initState evStart).chat_history = [] ∧
    (step initState evStart).final_project = none ∧
    phase (step initState evStart) = Phase.Gathering :=
  claim_C4.1 initState ⟨2, by decide⟩ ⟨0, by decide⟩ (by decide)

/-- C5: the reset action from Complete restores the initial state: Topic,
ProjectType, Transcript, system prompt and final artifact are all cleared
and the phase returns to Idle. -/
theorem claim_C5 (s : SessionState) (hph : phase s = Phase.Complete) :
    step s Ev.reset = initState ∧
    (step s Ev.reset).act = none ∧
    (step s Ev.reset).project_type = none ∧
    (step s Ev.reset).chat_history = [] ∧
    (step s Ev.reset).system_prompt = none ∧
    (step s Ev.reset).final_project = none ∧
    phase (step s Ev.reset) = Phase.Idle := by
  obtain ⟨hmg, hng, _⟩ := phase_complete_iff.mp hph
  have hc : (mainGuard s && !s.gathering_info) = true := by
    rw [hmg, hng]; rfl
  have hstep : step s Ev.reset = initState := resetStep_go s hc
  rw [hstep]
  exact ⟨rfl, rfl, rfl, rfl, rfl, rfl, by decide⟩

/-- C5 witness: the reset click from the concrete Complete state. -/
theorem claim_C5_witness :
    step sDone Ev.reset = initState ∧
    (step sDone Ev.reset).act = none ∧
    (step sDone Ev.reset).project_type = none ∧
    (step sDone Ev.reset).chat_history = [] ∧
    (step sDone Ev.reset).system_prompt = none ∧
    (step sDone Ev.reset).final_project = none ∧
    phase (step sDone Ev.reset) = Phase.Idle :=
  claim_C5 sDone (by decide)

/-- C6 counterexample: in the reachable Complete state for the Pendleton
Act with the paragraph project type, the code's file name keeps the Topic
verbatim — with its capital letters and spaces — so it differs from the
spec's all-lowercase separator-joined name. -/
theorem claim_C6_counterexample :
    Reachable sDone ∧ phase sDone = Phase.Complete ∧
    downloadFileName sDone = "Pendleton Act (1883)_a_paragraph_describing_a_scenario.txt" ∧
    downloadFileName sDone ≠
      specFileName "Pendleton Act (1883)" "A paragraph describing a scenario" :=
  ⟨reach_sDone, by decide, by decide, by decide⟩

/-- C6 amended: on reaching Complete the exported file name is derived
deterministically from the selections, with the ProjectType component
lowercased and its spaces replaced by underscores, while the Topic
component is used verbatim. -/
theorem claim_C6_amended (s : SessionState) (hr : Reachable s)
    (hph : phase s = Phase.Complete) :
    ∃ a t, s.act = some a ∧ s.project_type = some t ∧ a ∈ actNames ∧ t ∈ project_types ∧
      downloadFileName s = a ++ "_" ++ pyReplaceChar (pyLower t) ' ' '_' ++ ".txt" ∧
      ∀ c ∈ (pyReplaceChar (pyLower t) ' ' '_').toList, c.isUpper = false ∧ c ≠ ' ' := by
  obtain ⟨_, _, _, h4, h5, _⟩ := reachable_inv hr
  obtain ⟨hmg, _, _⟩ := phase_complete_iff.mp hph
  obtain ⟨hact, htype, _⟩ := mainGuard_iff.mp hmg
  cases hA : s.act with
  | none => rw [hA] at hact; cases hact
  | some a =>
      cases hT : s.project_type with
      | none => rw [hT] at htype; cases htype
      | some t =>
          refine ⟨a, t, rfl, rfl, h4 a hA, h5 t hT, ?_, ?_⟩
          · unfold downloadFileName
            rw [hA, hT]
            rfl
          · have ht := h5 t hT
            fin_cases ht <;> decide

/-- C6 amended witness: the concrete Complete state of the scenario. -/
theorem claim_C6_amended_witness :
    ∃ a t, sDone.act = some a ∧ sDone.project_type = some t ∧ a ∈ actNames ∧
      t ∈ project_types ∧
      downloadFileName sDone = a ++ "_" ++ pyReplaceChar (pyLower t) ' ' '_' ++ ".txt" ∧
      ∀ c ∈ (pyReplaceChar (pyLower t) ' ' '_').toList, c.isUpper = false ∧ c ≠ ' ' :=
  claim_C6_amended sDone reach_sDone (by decide)

/-- C7: the gathering calls use max_tokens 300 and temperature 0.7, the
finalization call uses max_tokens 800 and temperature 0.5, so the final
call has a strictly larger token budget and a strictly lower temperature
than the gathering calls. -/
theorem claim_C7 (s : SessionState) (input : String) :
    (gatherRequest s input).maxTokens = 300 ∧
    (gatherRequest s input).temperature = 7 / 10 ∧
    (finalRequest s).maxTokens = 800 ∧
    (finalRequest s).temperature = 1 / 2 ∧
    (gatherRequest s input).maxTokens < (finalRequest s).maxTokens ∧
    (finalRequest s).temperature < (gatherRequest s input).temperature := by
  refine ⟨rfl, ?_, rfl, ?_, ?_, ?_⟩
  · show (0.7 : ℚ) = 7 / 10
    norm_num
  · show (0.5 : ℚ) = 1 / 2
    norm_num
  · show (300 : Nat) < 800
    norm_num
  · show (0.5 : ℚ) < 0.7
    norm_num

/-- The prompt the clicked sidebar stores, as a function of the two
selection indices. -/
def builtPrompt (i : Fin actNames.length) (j : Fin project_types.length) : String :=
  ((sidebarStep initState i j true).1.system_prompt).getD ""

/-- The stored prompt is the Prompt Builder applied to the selected
type word, act name and act description. -/
lemma builtPrompt_eq (i : Fin actNames.length) (j : Fin project_types.length) :
    builtPrompt i j =
      systemPromptFor ((typeMap (typeOption j)).getD "") (actOption i)
        ((lookupDesc (actOption i)).getD "") := by
  unfold builtPrompt
  rw [sidebarStep_clicked]
  rfl

/-- The built prompt contains the act name. -/
lemma systemPromptFor_contains_act (t a d : String) :
    strContains (systemPromptFor t a d) a := by
  refine ⟨promptPart1 ++ (t ++ promptPart2), promptPart3 ++ (d ++ promptPart4), ?_⟩
  unfold systemPromptFor
  simp [String.append_assoc]

/-- The built prompt contains the act description. -/
lemma systemPromptFor_contains_desc (t a d : String) :
    strContains (systemPromptFor t a d) d := by
  refine ⟨promptPart1 ++ (t ++ (promptPart2 ++ (a ++ promptPart3))), promptPart4, ?_⟩
  unfold systemPromptFor
  simp [String.append_assoc]

/-- Anything contained in the fixed tail is contained in the built
prompt. -/
lemma systemPromptFor_contains_part4 {sub : String} (h : strContains promptPart4 sub)
    (t a d : String) : strContains (systemPromptFor t a d) sub := by
  unfold systemPromptFor
  exact strContains_prepend _ (strContains_prepend _ (strContains_prepend _
    (strContains_prepend _ (strContains_prepend _ (strContains_prepend _ h)))))

/-- A string contains its own prefix half. -/
lemma strContains_starts (s q : String) : strContains (s ++ q) s := ⟨"", q, rfl⟩

/-- The fixed tail contains the paragraph rule. -/
lemma part4_contains_rule_para : strContains promptPart4 (typeRule "paragraph") := by
  rw [promptPart4_decomp]
  exact strContains_here _ _ _

/-- The fixed tail contains the comic-strip rule. -/
lemma part4_contains_rule_comic : strContains promptPart4 (typeRule "comic strip") := by
  rw [promptPart4_decomp]
  exact strContains_prepend _ (strContains_prepend _ (strContains_prepend _
    (strContains_starts _ _)))

/-- The fixed tail contains the skit rule. -/
lemma part4_contains_rule_skit : strContains promptPart4 (typeRule "skit") := by
  rw [promptPart4_decomp]
  exact strContains_prepend _ (strContains_prepend _ (strContains_prepend _
    (strContains_prepend _ (strContains_prepend _ (strContains_starts _ _)))))

/-- The fixed tail ends with the opening question. -/
lemma part4_ends_oq : ∃ pre, promptPart4 = pre ++ openingQuestion := by
  refine ⟨promptSeg ++ (typeRule "paragraph" ++ (promptMid ++ (typeRule "comic strip" ++
    (promptMid ++ (typeRule "skit" ++ promptTail))))), ?_⟩
  rw [promptPart4_decomp]
  simp [String.append_assoc]

/-- The built prompt ends with the fixed opening question, whatever the
selections. -/
lemma systemPromptFor_ends_oq (t a d : String) :
    ∃ pre, systemPromptFor t a d = pre ++ openingQuestion := by
  obtain ⟨pre, hpre⟩ := part4_ends_oq
  refine ⟨promptPart1 ++ (t ++ (promptPart2 ++ (a ++ (promptPart3 ++ (d ++ pre))))), ?_⟩
  unfold systemPromptFor
  rw [hpre]
  simp [String.append_assoc]

/-- Each selectable type maps to one of the three rule words. -/
lemma typeOption_word : ∀ j : Fin project_types.length,
    (typeMap (typeOption j)).getD "" = "paragraph" ∨
    (typeMap (typeOption j)).getD "" = "comic strip" ∨
    (typeMap (typeOption j)).getD "" = "skit" := by
  decide

/-- C8: the Prompt Builder is a deterministic function of the selections,
and the prompt it stores embeds the selected act's name and description,
the type-specific generation rule, and the fixed opening question as a
constant suffix; for the Paragraph type it contains "paragraph" and
"4-6 sentences". -/
theorem claim_C8 (i : Fin actNames.length) (j : Fin project_types.length) :
    builtPrompt i j =
      systemPromptFor ((typeMap (typeOption j)).getD "") (actOption i)
        ((lookupDesc (actOption i)).getD "") ∧
    strContains (builtPrompt i j) (actOption i) ∧
    strContains (builtPrompt i j) ((lookupDesc (actOption i)).getD "") ∧
    strContains (builtPrompt i j) (typeRule ((typeMap (typeOption j)).getD "")) ∧
    (∃ pre, builtPrompt i j = pre ++ openingQuestion) ∧
    ((typeMap (typeOption j)).getD "" = "paragraph" →
      strContains (builtPrompt i j) "paragraph" ∧
      strContains (builtPrompt i j) "4-6 sentences") := by
  rw [builtPrompt_eq]
  refine ⟨rfl, systemPromptFor_contains_act _ _ _, systemPromptFor_contains_desc _ _ _,
    ?_, systemPromptFor_ends_oq _ _ _, ?_⟩
  · rcases typeOption_word j with h | h | h <;> rw [h]
    · exact systemPromptFor_contains_part4 part4_contains_rule_para _ _ _
    · exact systemPromptFor_contains_part4 part4_contains_rule_comic _ _ _
    · exact systemPromptFor_contains_part4 part4_contains_rule_skit _ _ _
  · intro _
    exact ⟨strContains_trans
        (systemPromptFor_contains_part4 part4_contains_rule_para _ _ _)
        paragraphRule_contains_word,
      strContains_trans
        (systemPromptFor_contains_part4 part4_contains_rule_para _ _ _)
        paragraphRule_contains_sentences⟩

/-- C8 witness: the Pendleton Act with the Paragraph type. -/
theorem claim_C8_witness :
    builtPrompt ⟨2, by decide⟩ ⟨0, by decide⟩ =
      systemPromptFor ((typeMap (typeOption ⟨0, by decide⟩)).getD "")
        (actOption ⟨2, by decide⟩) ((lookupDesc (actOption ⟨2, by decide⟩)).getD "") ∧
    strContains (builtPrompt ⟨2, by decide⟩ ⟨0, by decide⟩) (actOption ⟨2, by decide⟩) ∧
    strContains (builtPrompt ⟨2, by decide⟩ ⟨0, by decide⟩)
      ((lookupDesc (actOption ⟨2, by decide⟩)).getD "") ∧
    strContains (builtPrompt ⟨2, by decide⟩ ⟨0, by decide⟩)
      (typeRule ((typeMap (typeOption ⟨0, by decide⟩)).getD "")) ∧
    (∃ pre, builtPrompt ⟨2, by decide⟩ ⟨0, by decide⟩ = pre ++ openingQuestion) ∧
    ((typeMap (typeOption ⟨0, by decide⟩)).getD "" = "paragraph" →
      strContains (builtPrompt ⟨2, by decide⟩ ⟨0, by decide⟩) "paragraph" ∧
      strContains (builtPrompt ⟨2, by decide⟩ ⟨0, by decide⟩) "4-6 sentences") :=
  claim_C8 ⟨2, by decide⟩ ⟨0, by decide⟩

/-- C9: after any sidebar run both the Topic and the ProjectType session
fields hold truthy selections, so a Start click never takes the
missing-selection warning branch. -/
theorem claim_C9 (s : SessionState) (i : Fin actNames.length)
    (j : Fin project_types.length) :
    optTruthy (applySelects s i j).act = true ∧
    optTruthy (applySelects s i j).project_type = true ∧
    (sidebarStep s i j true).2 = false := by
  rw [applySelects_spec, sidebarStep_clicked]
  exact ⟨by simp [optTruthy, actOption_ne i], by simp [optTruthy, typeOption_ne j], rfl⟩

/-- C10: every reachable Transcript holds only user and assistant
messages — never a system message — and both gateway calls prepend the
separately stored system prompt as a fresh head message in front of the
Transcript. -/
theorem claim_C10 (s : SessionState) (hr : Reachable s) :
    (∀ m ∈ s.chat_history, m.role = Role.user ∨ m.role = Role.assistant) ∧
    (∀ m ∈ s.chat_history, m.role ≠ Role.system) ∧
    (∀ input, (gatherRequest s input).messages =
      (⟨Role.system, s.system_prompt.getD ""⟩ : Message) ::
        (s.chat_history ++ [(⟨Role.user, input⟩ : Message)])) ∧
    (finalRequest s).messages =
      (⟨Role.system, s.system_prompt.getD "" ++ finalSuffix⟩ : Message) :: s.chat_history := by
  have h6 := (reachable_inv hr).2.2.2.2.2
  refine ⟨h6, ?_, fun _ => rfl, rfl⟩
  intro m hm
  rcases h6 m hm with h | h <;> rw [h] <;> decide

/-- C10 witness: the concrete Finalizing state, whose Transcript holds a
user and an assistant message. -/
theorem claim_C10_witness :
    (∀ m ∈ sFin.chat_history, m.role = Role.user ∨ m.role = Role.assistant) ∧
    (∀ m ∈ sFin.chat_history, m.role ≠ Role.system) ∧
    (∀ input, (gatherRequest sFin input).messages =
      (⟨Role.system, sFin.system_prompt.getD ""⟩ : Message) ::
        (sFin.chat_history ++ [(⟨Role.user, input⟩ : Message)])) ∧
    (finalRequest sFin).messages =
      (⟨Role.system, sFin.system_prompt.getD "" ++ finalSuffix⟩ : Message) :: sFin.chat_history :=
  claim_C10 sFin reach_sFin

/-- C7 witness: the numeric parameters at a concrete state and input. -/
theorem claim_C7_witness :
    (gatherRequest initState "hi").maxTokens = 300 ∧
    (gatherRequest initState "hi").temperature = 7 / 10 ∧
    (finalRequest initState).maxTokens = 800 ∧
    (finalRequest initState).temperature = 1 / 2 ∧
    (gatherRequest initState "hi").maxTokens < (finalRequest initState).maxTokens ∧
    (finalRequest initState).temperature < (gatherRequest initState "hi").temperature :=
  claim_C7 initState "hi"

/-- C9 witness: a sidebar run from the initial state with the Hatch Act
and the comic-strip type selected. -/
theorem claim_C9_witness :
    optTruthy (applySelects initState ⟨3, by decide⟩ ⟨1, by decide⟩).act = true ∧
    optTruthy (applySelects initState ⟨3, by decide⟩ ⟨1, by decide⟩).project_type = true ∧
    (sidebarStep initState ⟨3, by decide⟩ ⟨1, by decide⟩ true).2 = false :=
  claim_C9 initState ⟨3, by decide⟩ ⟨1, by decide⟩
